import Mathlib

/-
Verification of the Tareldar orbit-propagation core: a shallow embedding of
src/src/orbit.rs, src/src/core.rs, src/src/bodies.rs, src/src/mission.rs and
src/src/propagator.rs, with the f64 arithmetic modelled over the real numbers
(division by zero yields the junk value 0 in this model, where IEEE would
produce NaN or infinity).
-/

namespace Tareldar

noncomputable section

/-- Three-component real vector, standing for nalgebra Vector3 of f64 as used
by the source. -/
structure Vector3 where
  x : ℝ
  y : ℝ
  z : ℝ

/-- Squared Euclidean norm of a Vector3. -/
def Vector3.normSq (v : Vector3) : ℝ :=
  v.x ^ 2 + v.y ^ 2 + v.z ^ 2

/-- Euclidean norm of a Vector3. -/
def Vector3.norm (v : Vector3) : ℝ :=
  Real.sqrt v.normSq

/-- Six-component state vector, standing for ode_solvers Vector6 of f64:
components y0..y2 are position, y3..y5 velocity. -/
structure Vector6 where
  y0 : ℝ
  y1 : ℝ
  y2 : ℝ
  y3 : ℝ
  y4 : ℝ
  y5 : ℝ

/-- From src/src/orbit.rs lines 56-64: the six classical orbital elements. -/
structure KeplerElements where
  semi_major_axis : ℝ
  eccentricity : ℝ
  inclination : ℝ
  longitude_of_ascending_node : ℝ
  argument_of_periapsis : ℝ
  true_anomaly : ℝ

/-- From src/src/bodies.rs lines 16-19. -/
inductive CentralBody where
  | EARTH

/-- From src/src/bodies.rs lines 12-14. -/
structure Body where
  mu : ℝ

/-- From src/src/bodies.rs lines 6-10: gravitational-parameter lookup. -/
def get_body : CentralBody → Body
  | CentralBody.EARTH => ⟨398600.4418e9⟩

/-- From src/src/orbit.rs lines 27-31. -/
inductive CoordinateSystem where
  | EarthCenteredInertial
  | EarthCenteredEarthFixed

/-- From src/src/propagator.rs lines 13-18. -/
inductive OdeSolver where
  | RungeKutta4
  | DormandPrince5
  | DormandPrince853

/-- From src/src/orbit.rs lines 8-14. -/
structure Orbit where
  kepler_elements : KeplerElements
  central_body : CentralBody
  coordinate_system : CoordinateSystem
  ode_solver : OdeSolver

/-- From src/src/mission.rs lines 3-8. -/
structure Mission where
  orbit : Orbit
  epoch : ℝ
  duration : ℝ

/-- Translation of KeplerElements::to_state_vector from src/src/orbit.rs
lines 81-126 (the copy used by propagate). powi(2) is exact squaring in f64,
embedded as the natural-number power. Note that the third velocity component
reuses position.y, exactly as the source does on line 120. -/
def KeplerElements.to_state_vector (self : KeplerElements) (mu : ℝ) :
    Vector3 × Vector3 :=
  let semi_latus_rectum := self.semi_major_axis * (1 - self.eccentricity ^ 2)
  let r := semi_latus_rectum / (1 + self.eccentricity * Real.cos self.true_anomaly)
  let arg_of_lat := self.argument_of_periapsis + self.true_anomaly
  let position : Vector3 :=
    ⟨r * (Real.cos arg_of_lat * Real.cos self.longitude_of_ascending_node
        - Real.sin arg_of_lat * Real.cos self.inclination
          * Real.sin self.longitude_of_ascending_node),
     r * (Real.cos arg_of_lat * Real.sin self.longitude_of_ascending_node
        + Real.sin arg_of_lat * Real.cos self.inclination
          * Real.cos self.longitude_of_ascending_node),
     r * (Real.sin arg_of_lat * Real.sin self.inclination)⟩
  let h := Real.sqrt (mu * self.semi_major_axis * (1 - self.eccentricity ^ 2))
  let velocity : Vector3 :=
    ⟨position.x * h * self.eccentricity / (r * semi_latus_rectum)
        * Real.sin self.true_anomaly
      - h / r * (Real.cos self.longitude_of_ascending_node * Real.sin arg_of_lat
          + Real.sin self.longitude_of_ascending_node * Real.cos arg_of_lat
            * Real.cos self.inclination),
     position.y * h * self.eccentricity / (r * semi_latus_rectum)
        * Real.sin self.true_anomaly
      - h / r * (Real.sin self.longitude_of_ascending_node * Real.sin arg_of_lat
          - Real.cos self.longitude_of_ascending_node * Real.cos arg_of_lat
            * Real.cos self.inclination),
     position.y * h * self.eccentricity / (r * semi_latus_rectum)
        * Real.sin self.true_anomaly
      + h / r * Real.sin self.inclination * Real.cos arg_of_lat⟩
  (position, velocity)

namespace CoreDraft

/-- Translation of the duplicate draft KeplerElements::to_state_vector from
src/src/core.rs lines 111-156. Its position formulas differ from the
orbit.rs copy: the second component uses sin of the node in both terms
(line 125-128) and the third uses cos of the argument of periapsis
(line 129). The velocity block is textually identical to orbit.rs but reads
this draft position. -/
def to_state_vector (self : KeplerElements) (mu : ℝ) : Vector3 × Vector3 :=
  let semi_latus_rectum := self.semi_major_axis * (1 - self.eccentricity ^ 2)
  let r := semi_latus_rectum / (1 + self.eccentricity * Real.cos self.true_anomaly)
  let arg_of_lat := self.argument_of_periapsis + self.true_anomaly
  let position : Vector3 :=
    ⟨r * (Real.cos self.longitude_of_ascending_node * Real.cos arg_of_lat
        - Real.sin self.longitude_of_ascending_node * Real.sin arg_of_lat
          * Real.cos self.inclination),
     r * (Real.sin self.longitude_of_ascending_node * Real.cos arg_of_lat
        + Real.sin self.longitude_of_ascending_node * Real.sin arg_of_lat
          * Real.cos self.inclination),
     r * (Real.cos self.argument_of_periapsis * Real.sin self.inclination)⟩
  let h := Real.sqrt (mu * self.semi_major_axis * (1 - self.eccentricity ^ 2))
  let velocity : Vector3 :=
    ⟨position.x * h * self.eccentricity / (r * semi_latus_rectum)
        * Real.sin self.true_anomaly
      - h / r * (Real.cos self.longitude_of_ascending_node * Real.sin arg_of_lat
          + Real.sin self.longitude_of_ascending_node * Real.cos arg_of_lat
            * Real.cos self.inclination),
     position.y * h * self.eccentricity / (r * semi_latus_rectum)
        * Real.sin self.true_anomaly
      - h / r * (Real.sin self.longitude_of_ascending_node * Real.sin arg_of_lat
          - Real.cos self.longitude_of_ascending_node * Real.cos arg_of_lat
            * Real.cos self.inclination),
     position.y * h * self.eccentricity / (r * semi_latus_rectum)
        * Real.sin self.true_anomaly
      + h / r * Real.sin self.inclination * Real.cos arg_of_lat⟩
  (position, velocity)

end CoreDraft

/-- Translation of the System impl for Orbit, src/src/propagator.rs
lines 51-60: the two-body equations of motion. powf(3.0/2.0) on the
non-negative sum of squares is the real power, embedded with rpow. -/
def Orbit.system (self : Orbit) (_t : ℝ) (y : Vector6) : Vector6 :=
  let denominator : ℝ := (y.y0 ^ 2 + y.y1 ^ 2 + y.y2 ^ 2) ^ ((3 : ℝ) / 2)
  let body := get_body self.central_body
  ⟨y.y3, y.y4, y.y5,
   -body.mu * y.y0 / denominator,
   -body.mu * y.y1 / denominator,
   -body.mu * y.y2 / denominator⟩

/-- The arguments propagate passes to Dopri5::new of the ode_solvers crate
(in order after the system object): start time, end time, the 10.0 step
parameter, initial state, relative tolerance, absolute tolerance. -/
structure Dopri5Params where
  t0 : ℝ
  tEnd : ℝ
  dx : ℝ
  y0 : Vector6
  rtol : ℝ
  atol : ℝ

/-- Translation of propagate, src/src/propagator.rs lines 66-89, up to the
construction of the Dopri5 stepper: resolve mu, convert the elements to a
state vector with no validation, and pass epoch, duration, 10.0, the state,
rtol 1e-6 and atol 1e-8 to Dopri5::new. -/
def propagate_call (mission : Mission) : Dopri5Params :=
  let body := get_body mission.orbit.central_body
  let pv := mission.orbit.kepler_elements.to_state_vector body.mu
  ⟨mission.epoch, mission.duration, 10,
   ⟨pv.1.x, pv.1.y, pv.1.z, pv.2.x, pv.2.y, pv.2.z⟩,
   1e-6, 1e-8⟩

/-- Modelled from the spec: the external ode_solvers Dopri5 integrator is a
deterministic function of the right-hand-side function and the call
parameters, so the data below fully determines the produced trajectory.
The right-hand side passed to the stepper is the System impl of Orbit. -/
def propagate_run_inputs (mission : Mission) :
    (ℝ → Vector6 → Vector6) × Dopri5Params :=
  (mission.orbit.system, propagate_call mission)

/-- Modelled from the spec: the result of Dopri5::integrate of the external
ode_solvers crate, either success with the accepted steps or an integration
failure (step-size underflow, non-finite derivative) described by a message. -/
inductive IntegrationResult where
  | ok : List Vector6 → IntegrationResult
  | err : String → IntegrationResult

/-- Outcome of the propagate function as seen by the caller: either a
returned trajectory or a process panic. -/
inductive PropagateOutcome where
  | trajectory : List Vector6 → PropagateOutcome
  | panicked : String → PropagateOutcome

/-- Translation of src/src/propagator.rs lines 90-96: the .expect call on the
integration result panics with the fixed message on any integrator error and
returns y_out on success. -/
def handle_integration (res : IntegrationResult) : PropagateOutcome :=
  match res with
  | IntegrationResult.ok ys => PropagateOutcome.trajectory ys
  | IntegrationResult.err _ =>
      PropagateOutcome.panicked "ERROR: Unable to integrate provided parameters."

/-- The orbital radius formula of the spec: r = a(1-e^2)/(1+e cos nu). -/
def formula_radius (el : KeplerElements) : ℝ :=
  el.semi_major_axis * (1 - el.eccentricity ^ 2)
    / (1 + el.eccentricity * Real.cos el.true_anomaly)

/-- The position formula as the spec states it, with u = omega + nu:
x = r(cos O cos u - sin O sin u cos i), y = r(cos u sin O + sin u cos i cos O),
z = r sin u sin i. -/
def spec_position (el : KeplerElements) : Vector3 :=
  let r := formula_radius el
  let u := el.argument_of_periapsis + el.true_anomaly
  ⟨r * (Real.cos el.longitude_of_ascending_node * Real.cos u
      - Real.sin el.longitude_of_ascending_node * Real.sin u
        * Real.cos el.inclination),
   r * (Real.cos u * Real.sin el.longitude_of_ascending_node
      + Real.sin u * Real.cos el.inclination
        * Real.cos el.longitude_of_ascending_node),
   r * (Real.sin u * Real.sin el.inclination)⟩

/-- A fixed benign element set: a = 1, e = 0, all angles zero. -/
def el0 : KeplerElements := ⟨1, 0, 0, 0, 0, 0⟩

/-- The Default impl of KeplerElements, src/src/orbit.rs lines 66-77. -/
def default_kepler_elements : KeplerElements := ⟨1000, 0, 0, 0, 0, 0⟩

/-- The Default impl of Orbit, src/src/orbit.rs lines 16-25. -/
def default_orbit : Orbit :=
  ⟨default_kepler_elements, CentralBody.EARTH,
   CoordinateSystem.EarthCenteredInertial, OdeSolver.RungeKutta4⟩

/-- A concrete state with unit radius along the x axis. -/
def y6ex : Vector6 := ⟨1, 0, 0, 0, 0, 0⟩

/-- A mission with nonzero epoch: epoch 1, duration 2. -/
def missionC2 : Mission := ⟨default_orbit, 1, 2⟩

/-- Elements with a = 1, e = 1/2, i = pi/2, node 0, periapsis 0, nu = pi/2:
they satisfy the preconditions (p = 3/4 > 0). -/
def elC1 : KeplerElements := ⟨1, 1 / 2, Real.pi / 2, 0, 0, Real.pi / 2⟩

/-- Elements with a = 1, e = 0, i = pi/2, node 0, periapsis pi/2, nu = 0. -/
def elC9 : KeplerElements := ⟨1, 0, Real.pi / 2, 0, Real.pi / 2, 0⟩

/-- A degenerate mission: eccentricity 1, so the semi-latus rectum is zero. -/
def missionDeg : Mission :=
  ⟨⟨⟨7000000, 1, 0, 0, 0, 0⟩, CentralBody.EARTH,
    CoordinateSystem.EarthCenteredInertial, OdeSolver.DormandPrince5⟩, 0, 3600⟩

/-- Two missions equal except in the ode_solver and coordinate_system fields. -/
def missionA : Mission :=
  ⟨⟨el0, CentralBody.EARTH, CoordinateSystem.EarthCenteredInertial,
    OdeSolver.RungeKutta4⟩, 0, 3600⟩

/-- Counterpart of missionA with the other coordinate system and solver. -/
def missionB : Mission :=
  ⟨⟨el0, CentralBody.EARTH, CoordinateSystem.EarthCenteredEarthFixed,
    OdeSolver.DormandPrince5⟩, 0, 3600⟩

end

/-- The squared norm of the inertial-frame rotation of an in-plane radius r is
r squared, given the three Pythagorean identities of the angles involved. -/
theorem frame_rotation_normSq (r cu su ci si cO sO : ℝ)
    (h1 : sO ^ 2 + cO ^ 2 = 1) (h2 : si ^ 2 + ci ^ 2 = 1)
    (h3 : su ^ 2 + cu ^ 2 = 1) :
    (r * (cu * cO - su * ci * sO)) ^ 2 + (r * (cu * sO + su * ci * cO)) ^ 2
      + (r * (su * si)) ^ 2 = r ^ 2 := by
  linear_combination (r ^ 2 * (cu ^ 2 + su ^ 2 * ci ^ 2)) * h1
    + r ^ 2 * su ^ 2 * h2 + r ^ 2 * h3

/-- The squared norm of the position computed by to_state_vector is the square
of the formula radius, for every input. -/
theorem to_state_vector_position_normSq (el : KeplerElements) (mu : ℝ) :
    ((el.to_state_vector mu).1).normSq = formula_radius el ^ 2 := by
  simp only [KeplerElements.to_state_vector, Vector3.normSq, formula_radius]
  exact frame_rotation_normSq _ _ _ _ _ _ _
    (Real.sin_sq_add_cos_sq el.longitude_of_ascending_node)
    (Real.sin_sq_add_cos_sq el.inclination)
    (Real.sin_sq_add_cos_sq (el.argument_of_periapsis + el.true_anomaly))

/-- With eccentricity in [0, 1), the denominator 1 + e cos nu is positive. -/
theorem radius_denom_pos (el : KeplerElements)
    (he0 : 0 ≤ el.eccentricity) (he1 : el.eccentricity < 1) :
    0 < 1 + el.eccentricity * Real.cos el.true_anomaly := by
  have h2 : el.eccentricity * (-1) ≤ el.eccentricity * Real.cos el.true_anomaly :=
    mul_le_mul_of_nonneg_left (Real.neg_one_le_cos el.true_anomaly) he0
  linarith

/-- Claim C4: for every KeplerElements and mu satisfying the preconditions,
the position returned by to_state_vector equals the spec formula with
p = a(1-e^2), r = p/(1+e cos nu), u = omega + nu. -/
theorem c4_position_matches_spec_formula (el : KeplerElements) (mu : ℝ)
    (hmu : 0 < mu) (he0 : 0 ≤ el.eccentricity) (he1 : el.eccentricity < 1)
    (hp : 0 < el.semi_major_axis * (1 - el.eccentricity ^ 2)) :
    (el.to_state_vector mu).1 = spec_position el := by
  simp only [KeplerElements.to_state_vector, spec_position, formula_radius]
  congr 1
  all_goals ring

/-- Witness for claim C4 at a = 1, e = 0, all angles zero, mu = 1. -/
theorem c4_position_matches_spec_formula_witness :
    ((0 : ℝ) < 1 ∧ (0 : ℝ) ≤ el0.eccentricity ∧ el0.eccentricity < 1
      ∧ 0 < el0.semi_major_axis * (1 - el0.eccentricity ^ 2))
    ∧ (el0.to_state_vector 1).1 = spec_position el0 :=
  ⟨⟨by norm_num, by norm_num [el0], by norm_num [el0], by norm_num [el0]⟩,
   c4_position_matches_spec_formula el0 1 (by norm_num) (by norm_num [el0])
     (by norm_num [el0]) (by norm_num [el0])⟩

/-- Claim C5: for every KeplerElements satisfying the preconditions, the
Euclidean norm of the position returned by to_state_vector equals the formula
radius r = a(1-e^2)/(1+e cos nu). -/
theorem c5_position_norm_is_formula_radius (el : KeplerElements) (mu : ℝ)
    (he0 : 0 ≤ el.eccentricity) (he1 : el.eccentricity < 1)
    (hp : 0 < el.semi_major_axis * (1 - el.eccentricity ^ 2)) :
    ((el.to_state_vector mu).1).norm = formula_radius el := by
  have hr : 0 < formula_radius el := by
    simp only [formula_radius]
    exact div_pos hp (radius_denom_pos el he0 he1)
  simp only [Vector3.norm]
  rw [to_state_vector_position_normSq, Real.sqrt_sq hr.le]

/-- Witness for claim C5 at a = 1, e = 0, all angles zero, mu = 1. -/
theorem c5_position_norm_is_formula_radius_witness :
    ((0 : ℝ) ≤ el0.eccentricity ∧ el0.eccentricity < 1
      ∧ 0 < el0.semi_major_axis * (1 - el0.eccentricity ^ 2))
    ∧ ((el0.to_state_vector 1).1).norm = formula_radius el0 :=
  ⟨⟨by norm_num [el0], by norm_num [el0], by norm_num [el0]⟩,
   c5_position_norm_is_formula_radius el0 1 (by norm_num [el0])
     (by norm_num [el0]) (by norm_num [el0])⟩

/-- A real power with exponent 3/2 of a non-negative base is the cube of its
square root. -/
theorem rpow_three_halves (s : ℝ) (hs : 0 ≤ s) :
    s ^ ((3 : ℝ) / 2) = Real.sqrt s ^ 3 := by
  rw [Real.sqrt_eq_rpow, ← Real.rpow_natCast (s ^ ((1 : ℝ) / 2)) 3,
    ← Real.rpow_mul hs]
  norm_num

/-- Claim C6: for every state with nonzero position, the System impl of Orbit
produces the derivative [vx, vy, vz, ax, ay, az] with acceleration
-mu (x,y,z)/(x^2+y^2+z^2)^(3/2). -/
theorem c6_two_body_rhs (o : Orbit) (t : ℝ) (y : Vector6)
    (h : ¬(y.y0 = 0 ∧ y.y1 = 0 ∧ y.y2 = 0)) :
    o.system t y
      = ⟨y.y3, y.y4, y.y5,
         -(get_body o.central_body).mu * y.y0
           / Real.sqrt (y.y0 ^ 2 + y.y1 ^ 2 + y.y2 ^ 2) ^ 3,
         -(get_body o.central_body).mu * y.y1
           / Real.sqrt (y.y0 ^ 2 + y.y1 ^ 2 + y.y2 ^ 2) ^ 3,
         -(get_body o.central_body).mu * y.y2
           / Real.sqrt (y.y0 ^ 2 + y.y1 ^ 2 + y.y2 ^ 2) ^ 3⟩ := by
  simp only [Orbit.system]
  rw [rpow_three_halves _ (by positivity)]

/-- Witness for claim C6 at the default orbit and the unit-radius state. -/
theorem c6_two_body_rhs_witness :
    ¬(y6ex.y0 = 0 ∧ y6ex.y1 = 0 ∧ y6ex.y2 = 0)
    ∧ default_orbit.system 0 y6ex
      = ⟨y6ex.y3, y6ex.y4, y6ex.y5,
         -(get_body default_orbit.central_body).mu * y6ex.y0
           / Real.sqrt (y6ex.y0 ^ 2 + y6ex.y1 ^ 2 + y6ex.y2 ^ 2) ^ 3,
         -(get_body default_orbit.central_body).mu * y6ex.y1
           / Real.sqrt (y6ex.y0 ^ 2 + y6ex.y1 ^ 2 + y6ex.y2 ^ 2) ^ 3,
         -(get_body default_orbit.central_body).mu * y6ex.y2
           / Real.sqrt (y6ex.y0 ^ 2 + y6ex.y1 ^ 2 + y6ex.y2 ^ 2) ^ 3⟩ :=
  ⟨by norm_num [y6ex], c6_two_body_rhs default_orbit 0 y6ex (by norm_num [y6ex])⟩

/-- Claim C7 fails on the code: the System impl has no singularity check; at
zero position radius it returns a junk derivative (0/0 divisions, read as 0 in
the real model and NaN in f64) instead of failing with any error. -/
theorem c7_zero_radius_returns_junk :
    default_orbit.system 0 ⟨0, 0, 0, 1, 2, 3⟩ = ⟨1, 2, 3, 0, 0, 0⟩ := by
  norm_num [Orbit.system, Real.zero_rpow]

/-- Claim C2 counterexample: propagate passes the duration field as the
absolute end time of the integration, so for epoch 1 and duration 2 the span
does not end at epoch + duration = 3. -/
theorem c2_time_span_counterexample :
    (propagate_call missionC2).tEnd ≠ missionC2.epoch + missionC2.duration := by
  norm_num [propagate_call, missionC2]

/-- Claim C2, amended: propagate hands the two-body system to the Dopri5
stepper with start time epoch, end time duration (not epoch + duration), step
parameter 10.0, relative tolerance 1e-6, absolute tolerance 1e-8, and the
initial state produced by to_state_vector at the resolved mu. -/
theorem c2_integration_call_parameters (m : Mission) :
    (propagate_call m).t0 = m.epoch ∧ (propagate_call m).tEnd = m.duration
    ∧ (propagate_call m).dx = 10 ∧ (propagate_call m).rtol = 1e-6
    ∧ (propagate_call m).atol = 1e-8
    ∧ (propagate_call m).y0
      = ⟨((m.orbit.kepler_elements.to_state_vector
            (get_body m.orbit.central_body).mu).1).x,
         ((m.orbit.kepler_elements.to_state_vector
            (get_body m.orbit.central_body).mu).1).y,
         ((m.orbit.kepler_elements.to_state_vector
            (get_body m.orbit.central_body).mu).1).z,
         ((m.orbit.kepler_elements.to_state_vector
            (get_body m.orbit.central_body).mu).2).x,
         ((m.orbit.kepler_elements.to_state_vector
            (get_body m.orbit.central_body).mu).2).y,
         ((m.orbit.kepler_elements.to_state_vector
            (get_body m.orbit.central_body).mu).2).z⟩ :=
  ⟨rfl, rfl, rfl, rfl, rfl, rfl⟩

/-- Claim C8 fails on the code: the .expect on the integration result turns
any integrator error into a panic with a fixed message, rather than returning
an explicit error value to the caller. -/
theorem c8_integration_error_panics :
    handle_integration (IntegrationResult.err "step size underflow")
      = PropagateOutcome.panicked
          "ERROR: Unable to integrate provided parameters." :=
  rfl

/-- Claim C10: two missions that agree on elements, central body, epoch and
duration produce the same right-hand-side function and the same Dopri5 call,
hence the same trajectory; the ode_solver and coordinate_system fields are
never read by propagate. -/
theorem c10_solver_and_frame_do_not_affect_propagation (m1 m2 : Mission)
    (hk : m1.orbit.kepler_elements = m2.orbit.kepler_elements)
    (hb : m1.orbit.central_body = m2.orbit.central_body)
    (he : m1.epoch = m2.epoch) (hd : m1.duration = m2.duration) :
    propagate_run_inputs m1 = propagate_run_inputs m2 := by
  have hsys : m1.orbit.system = m2.orbit.system := by
    funext t y
    simp only [Orbit.system, hb]
  have hcall : propagate_call m1 = propagate_call m2 := by
    simp only [propagate_call, hk, hb, he, hd]
  simp only [propagate_run_inputs, hsys, hcall]

/-- Witness for claim C10: missionA and missionB differ exactly in the
ode_solver and coordinate_system fields. -/
theorem c10_solver_and_frame_do_not_affect_propagation_witness :
    (missionA.orbit.kepler_elements = missionB.orbit.kepler_elements
      ∧ missionA.orbit.central_body = missionB.orbit.central_body
      ∧ missionA.epoch = missionB.epoch
      ∧ missionA.duration = missionB.duration)
    ∧ propagate_run_inputs missionA = propagate_run_inputs missionB :=
  ⟨⟨rfl, rfl, rfl, rfl⟩,
   c10_solver_and_frame_do_not_affect_propagation missionA missionB
     rfl rfl rfl rfl⟩

/-- Claim C1 fails on the code: at a = 1, e = 1/2, i = pi/2, node 0,
periapsis 0, nu = pi/2, mu = 1 (all preconditions hold, p = 3/4), the
velocity returned by to_state_vector has squared norm 4/3 while the vis-viva
right-hand side mu (2/|position| - 1/a) is 5/3. The third velocity component
of the source reuses position.y where the radial term needs position.z. -/
theorem c1_vis_viva_fails :
    ((elC1.to_state_vector 1).2).normSq
      ≠ 1 * (2 / ((elC1.to_state_vector 1).1).norm
          - 1 / elC1.semi_major_axis) := by
  have hfr : formula_radius elC1 = 3 / 4 := by
    norm_num [formula_radius, elC1, Real.cos_pi_div_two]
  have hposn : ((elC1.to_state_vector 1).1).norm = 3 / 4 := by
    simp only [Vector3.norm]
    rw [to_state_vector_position_normSq, hfr, Real.sqrt_sq (by norm_num)]
  have hlhs : ((elC1.to_state_vector 1).2).normSq = 4 / 3 := by
    have h3 : Real.sqrt (3 : ℝ) ^ 2 = 3 := Real.sq_sqrt (by norm_num)
    have h4 : Real.sqrt (4 : ℝ) = 2 := by
      rw [show (4 : ℝ) = 2 ^ 2 by norm_num, Real.sqrt_sq (by norm_num)]
    simp only [KeplerElements.to_state_vector, Vector3.normSq, elC1]
    norm_num [Real.cos_pi_div_two, Real.sin_pi_div_two, h4]
    linear_combination (4 / 9 : ℝ) * h3
  rw [hlhs, hposn]
  norm_num [elC1]

/-- Claim C3 fails on the code: propagate performs no validation at all; for
the degenerate mission with eccentricity 1 (semi-latus rectum 0) it divides
by zero while building the initial state (NaN in f64, 0 in the real model)
and still constructs the integrator call, instead of failing with any
InvalidOrbitGeometry error before integration. -/
theorem c3_no_geometry_validation :
    propagate_call missionDeg
      = ⟨0, 3600, 10, ⟨0, 0, 0, 0, 0, 0⟩, 1e-6, 1e-8⟩ := by
  norm_num [propagate_call, missionDeg, KeplerElements.to_state_vector,
    get_body, Real.sqrt_zero, Dopri5Params.mk.injEq, Vector6.mk.injEq]

/-- Claim C9 counterexample: at a = 1, e = 0, i = pi/2, node 0,
periapsis pi/2, nu = 0, mu = 1 the orbit.rs conversion puts the position at
z = 1 while the core.rs draft puts it at z = 0, so the two implementations
are not equal. -/
theorem c9_drafts_differ :
    KeplerElements.to_state_vector elC9 1 ≠ CoreDraft.to_state_vector elC9 1 := by
  have h1 : ((KeplerElements.to_state_vector elC9 1).1).z = 1 := by
    norm_num [KeplerElements.to_state_vector, elC9, Real.sin_pi_div_two,
      Real.cos_pi_div_two]
  have h2 : ((CoreDraft.to_state_vector elC9 1).1).z = 0 := by
    norm_num [CoreDraft.to_state_vector, elC9, Real.sin_pi_div_two,
      Real.cos_pi_div_two]
  intro heq
  rw [heq, h2] at h1
  exact one_ne_zero h1.symm

/-- Claim C9, amended: the two implementations agree in the x components of
position and velocity for every input; their y and z components differ in
general (the core.rs draft uses sin of the node in both terms of y and
cos of the argument of periapsis in z). -/
theorem c9_x_components_agree (el : KeplerElements) (mu : ℝ) :
    ((KeplerElements.to_state_vector el mu).1).x
      = ((CoreDraft.to_state_vector el mu).1).x
    ∧ ((KeplerElements.to_state_vector el mu).2).x
      = ((CoreDraft.to_state_vector el mu).2).x := by
  constructor
  · simp only [KeplerElements.to_state_vector, CoreDraft.to_state_vector]
    ring
  · simp only [KeplerElements.to_state_vector, CoreDraft.to_state_vector]
    ring

end Tareldar
